import Mathlib

/-!
# Verification of the Apple ASSN webhook gateway

A shallow embedding of `src/api/webhook.js` (and its variants
`src/unnamed/part_000`, `src/unnamed/part_001`): the JWS verification and
decoding pipeline (`verifyAndDecode`), the timestamp conversion (`msToIso`),
the notification-type mapping (`mapOperation`), the normalization of the
decoded notification into the flat event record forwarded downstream, and
the request `handler` that ties them together.

JavaScript values that the code treats as optional JSON fields are embedded
as `Option`; JavaScript truthiness of a string (`s || d`) is `s ≠ ""`; the
signature-verification primitive of the `jose` library is modelled
abstractly (a token carries the key and algorithm its signature actually
verifies under), since the cryptography itself is outside the repository.
-/

namespace AssnGateway

/-! ## JSON claim values

The two transaction-identifier claims are fed through JavaScript's
`String(x || '')`; their payload values may be strings or numbers, so they
are embedded as a small JSON-value type. -/

/-- A JSON claim value as far as this pipeline distinguishes them:
a string or a number. -/
inductive JVal where
  | jstr (s : String)
  | jnum (n : Int)
deriving DecidableEq, Repr

/-- JavaScript `String(v)` on a claim value: numbers render in decimal. -/
def JVal.toStr : JVal → String
  | .jstr s => s
  | .jnum n => toString n

/-- JavaScript truthiness of a claim value: `""` and `0` are falsy. -/
def JVal.truthy : JVal → Bool
  | .jstr s => s ≠ ""
  | .jnum n => n ≠ 0

/-- JavaScript `String(x || '')` where `x` is an optional claim value:
absent or falsy values give `""`, otherwise the string coercion of `x`. -/
def strCoerce : Option JVal → String
  | none => ""
  | some v => if v.truthy then v.toStr else ""

/-- JavaScript `a || rest` where `a` is an optional string field:
`a`'s value when present and non-empty, otherwise `rest`. -/
def jsOrS (a : Option String) (rest : String) : String :=
  match a with
  | some s => if s ≠ "" then s else rest
  | none => rest

/-! ## `Date.prototype.toISOString`

`msToIso` builds a `Date` from an epoch-milliseconds value and formats it
with `toISOString` (UTC).  The embedding implements the Gregorian
civil-from-days conversion and the exact output format of `toISOString`
(4-digit years zero-padded, years outside 0..9999 in the expanded
`±YYYYYY` form). -/

/-- Zero-pad the decimal rendering of `n` to width `w`. -/
def padNum (w n : Nat) : String :=
  let s := toString n
  String.mk (List.replicate (w - s.length) '0') ++ s

/-- Proleptic-Gregorian date (year, month, day) of a day count relative to
1970-01-01 (floor-division algorithm, valid for all integers). -/
def civilFromDays (z0 : Int) : Int × Nat × Nat :=
  let z := z0 + 719468
  let era := z.fdiv 146097
  let doe := (z - era * 146097).toNat
  let yoe := (doe - doe / 1460 + doe / 36524 - doe / 146096) / 365
  let y : Int := (yoe : Int) + era * 400
  let doy := doe - (365 * yoe + yoe / 4 - yoe / 100)
  let mp := (5 * doy + 2) / 153
  let d := doy - (153 * mp + 2) / 5 + 1
  let m := if mp < 10 then mp + 3 else mp - 9
  (if m ≤ 2 then y + 1 else y, m, d)

/-- `new Date(ms).toISOString()`: the UTC ISO-8601 rendering of an
epoch-milliseconds instant. -/
def toIso (ms : Int) : String :=
  let days := ms.fdiv 86400000
  let msod := (ms - days * 86400000).toNat
  let ymd := civilFromDays days
  let y := ymd.1
  let m := ymd.2.1
  let d := ymd.2.2
  let ystr :=
    if 0 ≤ y ∧ y ≤ 9999 then padNum 4 y.toNat
    else if y < 0 then "-" ++ padNum 6 (-y).toNat
    else "+" ++ padNum 6 y.toNat
  ystr ++ "-" ++ padNum 2 m ++ "-" ++ padNum 2 d ++ "T" ++
    padNum 2 (msod / 3600000) ++ ":" ++ padNum 2 (msod % 3600000 / 60000) ++ ":" ++
    padNum 2 (msod % 60000 / 1000) ++ "." ++ padNum 3 (msod % 1000) ++ "Z"

/-- `msToIso` from `src/api/webhook.js`:
`if (!ms) return null; const n = Number(ms);
 return new Date(n > 1e12 ? n : n * 1000).toISOString();`
The argument is the optional numeric `expiresDate` claim; `0` is falsy. -/
def msToIso : Option Int → Option String
  | none => none
  | some v => if v = 0 then none else some (toIso (if v > 10 ^ 12 then v else v * 1000))

/-! ## Key material and the abstract signature model -/

/-- One entry of the locally loaded Apple JWKS (`apple_keys.json`); the
pipeline only ever consults its `kid`.  The underlying public-key material
is abstracted into the identity of the record. -/
structure Jwk where
  kid : String
deriving DecidableEq, Repr

/-- A verification key as produced by `importJWK` (from a JWKS entry) or
`importX509` (ad hoc, from a certificate embedded in the token header). -/
inductive Key where
  | fromJwk (jwk : Jwk)
  | fromCert (cert : String)
deriving DecidableEq, Repr

/-- The four terminal verification errors of the pipeline (spec §7).
`malformedToken` covers a token that cannot be parsed into
header/payload/signature; `keyNotFound` carries the unmatched kid
(`No matching JWK found for kid=...`); `noKeyMaterial` is
`No kid or x5c found in JWS header`; `signatureInvalid` is any
cryptographic failure reported by the `jose` verification call
(including a header algorithm outside the allowed list). -/
inductive VerifyError where
  | malformedToken
  | keyNotFound (kid : String)
  | noKeyMaterial
  | signatureInvalid
deriving DecidableEq, Repr

/-- A parsed JWS with payload type `α`.  The protected header's `kid`,
`x5c` and self-declared `alg` are embedded directly (`x5c = []` stands for
an absent or empty chain).  The cryptography is abstracted: `sigKey` is
the key the token's signature actually verifies under (`none` when it
verifies under no key) and `sigAlg` the algorithm it was actually signed
with. -/
structure Jws (α : Type) where
  kid : Option String
  x5c : List String
  alg : Option String
  payload : α
  sigKey : Option Key
  sigAlg : String
deriving DecidableEq, Repr

/-- A compact JWS string as received on the wire: either parseable into a
`Jws` or malformed. -/
inductive CompactJws (α : Type) where
  | malformed
  | parsed (j : Jws α)
deriving DecidableEq, Repr

/-- Modelled from the spec: the `jose` library's `jwtVerify(jws, key,
{ algorithms })` (the library is not part of this repository).  The
header's self-declared algorithm must be in the allowed list, and the
signature must verify under the given key with that algorithm; any
failure is a cryptographic rejection (`signatureInvalid`). -/
def jwtVerify {α : Type} (j : Jws α) (key : Key) (algs : List String) :
    Except VerifyError α :=
  let alg := j.alg.getD ""
  if alg ∈ algs then
    if j.sigKey = some key ∧ j.sigAlg = alg then .ok j.payload
    else .error .signatureInvalid
  else .error .signatureInvalid

/-- `verifyAndDecode` from `src/api/webhook.js`: decode the protected
header; if it carries a (truthy) `kid`, look the kid up in the local JWKS
and fail with `keyNotFound` when absent; otherwise, if it carries a
non-empty `x5c`, build an ad-hoc key from the leaf certificate; otherwise
fail with `noKeyMaterial`.  Signature verification always passes the fixed
list `['ES256']`. -/
def verifyAndDecode {α : Type} (appleKeys : List Jwk) :
    CompactJws α → Except VerifyError α
  | .malformed => .error .malformedToken
  | .parsed j =>
    if j.kid.getD "" ≠ "" then
      match appleKeys.find? (fun k => k.kid == j.kid.getD "") with
      | none => .error (.keyNotFound (j.kid.getD ""))
      | some jwk => jwtVerify j (.fromJwk jwk) ["ES256"]
    else
      match j.x5c with
      | c :: _ => jwtVerify j (.fromCert c) ["ES256"]
      | [] => .error .noKeyMaterial

/-! ## Decoded claim sets -/

/-- Decoded nested transaction-info claim set (the fields the handler
reads).  The two transaction identifiers may be strings or numbers. -/
structure TxnInfo where
  productId : Option String
  expiresDate : Option Int
  transactionId : Option JVal
  originalTransactionId : Option JVal
  appAccountToken : Option String
deriving DecidableEq, Repr

/-- Decoded nested renewal-info claim set (the fields the handler reads). -/
structure RenInfo where
  autoRenewStatus : Option String
  autoRenewPreference : Option String
  appAccountToken : Option String
deriving DecidableEq, Repr

/-- The `data` block of the decoded outer notification.  A nested token
field is `some` when present and non-empty on the wire. -/
structure NoteData where
  environment : Option String
  signedTransactionInfo : Option (CompactJws TxnInfo)
  signedRenewalInfo : Option (CompactJws RenInfo)
deriving DecidableEq, Repr

/-- Decoded outer notification claim set. -/
structure Note where
  notificationType : Option String
  subtype : Option String
  notificationUUID : Option String
  data : Option NoteData
deriving DecidableEq, Repr

/-- `mapOperation` from `src/api/webhook.js`: uppercase the notification
type code and map it through the fixed switch; the
`DID_CHANGE_RENEWAL_STATUS` case inspects `renInfo?.autoRenewStatus ===
'OFF'`; the default case is `t.toLowerCase() || 'other'`. -/
def mapOperation (note : Note) (renInfo : Option RenInfo) : String :=
  let t := (jsOrS note.notificationType "").toUpper
  if t = "SUBSCRIBED" then "purchase"
  else if t = "DID_RENEW" then "renew"
  else if t = "DID_CHANGE_RENEWAL_STATUS" then
    if renInfo.bind RenInfo.autoRenewStatus = some "OFF" then "auto_renew_off"
    else "auto_renew_on"
  else if t = "DID_FAIL_TO_RENEW" then "renew_failed"
  else if t = "GRACE_PERIOD_EXPIRED" then "grace_expired"
  else if t = "EXPIRED" then "expired"
  else if t = "REFUND" ∨ t = "REVOKE" then "revoked"
  else if t.toLower = "" then "other" else t.toLower

/-! ## The normalized event -/

/-- One entry of the `entitlements` list of the normalized record. -/
structure Entitlement where
  product_id : String
  original_transaction_id : String
  expires_at : Option String
deriving DecidableEq, Repr

/-- The flat record (`out` in the handler) forwarded to the downstream
endpoint. -/
structure NormalizedEvent where
  now : String
  source : String
  operation : String
  environment : String
  notification_uuid : String
  type : String
  subtype : String
  transaction_id : String
  transaction_expires_at : Option String
  products : List String
  entitlements : List Entitlement
  app_account_token : String
deriving DecidableEq, Repr

/-- The normalization block of the handler (`const productId = ...` through
the construction of `out`), as a function of the decoded claim sets and of
the wall-clock reading `now` that the handler takes for the `now` field
(`new Date().toISOString()`). -/
def normalize (now : String) (note : Note) (txnInfo : Option TxnInfo)
    (renInfo : Option RenInfo) : NormalizedEvent :=
  let productId :=
    jsOrS (txnInfo.bind TxnInfo.productId)
      (jsOrS (renInfo.bind RenInfo.autoRenewPreference) "")
  let expiresIso := msToIso (txnInfo.bind TxnInfo.expiresDate)
  { now := now
    source := "apple-assn"
    operation := mapOperation note renInfo
    environment := jsOrS ((note.data).bind NoteData.environment) ""
    notification_uuid := jsOrS note.notificationUUID ""
    type := jsOrS note.notificationType ""
    subtype := jsOrS note.subtype ""
    transaction_id := strCoerce (txnInfo.bind TxnInfo.transactionId)
    transaction_expires_at := expiresIso
    products := if productId ≠ "" then [productId] else []
    entitlements :=
      if productId ≠ "" then
        [{ product_id := productId
           original_transaction_id :=
             strCoerce (txnInfo.bind TxnInfo.originalTransactionId)
           expires_at := expiresIso }]
      else []
    app_account_token :=
      jsOrS (txnInfo.bind TxnInfo.appAccountToken)
        (jsOrS (renInfo.bind RenInfo.appAccountToken) "") }

/-! ## The request handler -/

/-- The parsed request body: the optional `signedPayload` token (absent or
empty on the wire embeds to `none`) plus the remaining JSON members,
carried opaquely so that the echo path is observable. -/
structure Body where
  signedPayload : Option (CompactJws Note)
  rest : List (String × JVal)
deriving DecidableEq, Repr

/-- An inbound HTTP request as far as the handler inspects it. -/
structure Request where
  method : String
  body : Body
deriving DecidableEq, Repr

/-- The handler's response: plain text (health check / method rejection),
the forwarded-status JSON after a successful pipeline run, the
unconditional acknowledgement that echoes the body, or the 400 rejection
carrying the verification error. -/
inductive Response where
  | sendText (status : Nat) (text : String)
  | forwarded (forwardedStatus : Nat)
  | acknowledged (body : Body)
  | rejected (e : VerifyError)
deriving DecidableEq, Repr

/-- The HTTP status code of a response. -/
def Response.statusCode : Response → Nat
  | .sendText s _ => s
  | .forwarded _ => 200
  | .acknowledged _ => 200
  | .rejected _ => 400

/-- The verification-and-normalization pipeline of the handler's
`signedPayload` branch: verify the outer token, then — only when present —
the nested transaction-info and renewal-info tokens, then build the
normalized record.  Any layer's failure aborts the whole computation. -/
def pipeline (appleKeys : List Jwk) (now : String) (sp : CompactJws Note) :
    Except VerifyError NormalizedEvent := do
  let note ← verifyAndDecode appleKeys sp
  let txnInfo ←
    match (note.data).bind NoteData.signedTransactionInfo with
    | some t => (verifyAndDecode appleKeys t).map some
    | none => pure none
  let renInfo ←
    match (note.data).bind NoteData.signedRenewalInfo with
    | some t => (verifyAndDecode appleKeys t).map some
    | none => pure none
  pure (normalize now note txnInfo renInfo)

/-- The exported request handler.  Besides the configuration (the local
JWKS) it takes the ambient effects as parameters: the wall-clock reading
`now` and the status code `forwardStatus` with which the downstream
endpoint answers the forwarding POST.  It returns the HTTP response
together with the event actually delivered downstream (`none` when the
forwarding `fetch` was never reached). -/
def handler (appleKeys : List Jwk) (now : String) (forwardStatus : Nat)
    (req : Request) : Response × Option NormalizedEvent :=
  if req.method = "GET" then (.sendText 200 "ok", none)
  else if req.method ≠ "POST" then (.sendText 405 "method not allowed", none)
  else
    match req.body.signedPayload with
    | some sp =>
      match pipeline appleKeys now sp with
      | .ok out => (.forwarded forwardStatus, some out)
      | .error e => (.rejected e, none)
    | none => (.acknowledged req.body, none)

/-! ## Spec-side definitions and concrete example inputs -/

/-- The operation lookup exactly as the spec words it (for comparison with
`mapOperation`): a fixed, case-insensitive lookup on the type code, with
`DID_CHANGE_RENEWAL_STATUS` keyed on the auto-renew flag being literally
`"OFF"`, and a default of the lower-cased type code, or `other` when the
type code is empty. -/
def specOperation (typeCode : String) (autoRenewFlag : Option String) : String :=
  let t := typeCode.toUpper
  if t = "SUBSCRIBED" then "purchase"
  else if t = "DID_RENEW" then "renew"
  else if t = "DID_CHANGE_RENEWAL_STATUS" then
    if autoRenewFlag = some "OFF" then "auto_renew_off" else "auto_renew_on"
  else if t = "DID_FAIL_TO_RENEW" then "renew_failed"
  else if t = "GRACE_PERIOD_EXPIRED" then "grace_expired"
  else if t = "EXPIRED" then "expired"
  else if t = "REFUND" ∨ t = "REVOKE" then "revoked"
  else if typeCode = "" then "other"
  else typeCode.toLower

/-- The product id the handler derives:
`txnInfo?.productId || renInfo?.autoRenewPreference || ''`. -/
def derivedProductId (txnInfo : Option TxnInfo) (renInfo : Option RenInfo) : String :=
  jsOrS (txnInfo.bind TxnInfo.productId)
    (jsOrS (renInfo.bind RenInfo.autoRenewPreference) "")

/-- A simple decoded notification with no nested tokens. -/
def exNote : Note :=
  { notificationType := some "SUBSCRIBED"
    subtype := none
    notificationUUID := some "uuid-1"
    data := none }

/-- A decoded notification whose data block carries a malformed nested
transaction token. -/
def exNoteNested : Note :=
  { notificationType := some "DID_RENEW"
    subtype := none
    notificationUUID := some "uuid-2"
    data := some
      { environment := some "Production"
        signedTransactionInfo := some .malformed
        signedRenewalInfo := none } }

/-- An outer token that verifies via its embedded certificate chain and
decodes to `exNoteNested`. -/
def exOuterOk : Jws Note :=
  { kid := none
    x5c := ["certLeaf"]
    alg := some "ES256"
    payload := exNoteNested
    sigKey := some (.fromCert "certLeaf")
    sigAlg := "ES256" }

/-- A POST request carrying `exOuterOk` as its `signedPayload`. -/
def exReqNested : Request :=
  { method := "POST"
    body := { signedPayload := some (.parsed exOuterOk), rest := [] } }

/-- A POST request with no `signedPayload` (a ping / basic event). -/
def exReqPing : Request :=
  { method := "POST"
    body := { signedPayload := none, rest := [("hello", .jstr "world")] } }

/-- A parsed token whose header kid matches no key of the example JWKS. -/
def exJwsKidMiss : Jws Note :=
  { kid := some "kidB"
    x5c := []
    alg := some "ES256"
    payload := exNote
    sigKey := none
    sigAlg := "ES256" }

/-- A parsed token with no kid and a certificate chain. -/
def exJwsX5c : Jws Note :=
  { kid := none
    x5c := ["leaf", "intermediate"]
    alg := some "ES256"
    payload := exNote
    sigKey := some (.fromCert "leaf")
    sigAlg := "ES256" }

/-- A parsed token with neither kid nor certificate chain. -/
def exJwsBare : Jws Note :=
  { kid := none
    x5c := []
    alg := some "ES256"
    payload := exNote
    sigKey := none
    sigAlg := "ES256" }

/-- A parsed token whose kid is known but that was actually signed with
RS256, while its header self-declares ES256. -/
def exJwsWrongAlg : Jws Note :=
  { kid := some "kidA"
    x5c := []
    alg := some "ES256"
    payload := exNote
    sigKey := some (.fromJwk { kid := "kidA" })
    sigAlg := "RS256" }

/-- An example transaction info with string and numeric claims. -/
def exTxn : TxnInfo :=
  { productId := some "pro_monthly"
    expiresDate := some 1700000000
    transactionId := some (.jnum 42)
    originalTransactionId := some (.jstr "orig-1")
    appAccountToken := none }

/-! ## Helper lemmas -/

theorem char_toNat_ofNat {n : Nat} (h : n.isValidChar) : (Char.ofNat n).toNat = n := by
  unfold Char.ofNat
  rw [dif_pos h]
  simp [Char.ofNatAux, Char.toNat]
  rfl

theorem char_toLower_toUpper (c : Char) : c.toUpper.toLower = c.toLower := by
  by_cases h : c.toNat ≥ 97 ∧ c.toNat ≤ 122
  · have hv : Nat.isValidChar (c.toNat - 32) := Or.inl (by omega)
    have h1 : c.toUpper = Char.ofNat (c.toNat - 32) := by
      simp [Char.toUpper, h]
    have h2 : c.toUpper.toNat = c.toNat - 32 := by rw [h1]; exact char_toNat_ofNat hv
    have h3 : c.toUpper.toLower = Char.ofNat (c.toUpper.toNat + 32) := by
      simp only [Char.toLower]
      rw [if_pos (by omega)]
    have h4 : c.toLower = c := by
      simp only [Char.toLower]
      rw [if_neg (by omega)]
    rw [h3, h4, h2]
    have h5 : c.toNat - 32 + 32 = c.toNat := by omega
    rw [h5, Char.ofNat_toNat]
  · have h1 : c.toUpper = c := by
      simp only [Char.toUpper]
      rw [if_neg (by omega)]
    rw [h1]

theorem string_map_eq_empty_iff (f : Char → Char) (s : String) :
    String.map f s = "" ↔ s = "" := by
  rw [String.map_eq]
  constructor
  · intro h
    have hd : List.map f s.data = ("" : String).data := congrArg String.data h
    simp at hd
    cases s with
    | mk d => simp_all
  · intro h
    subst h
    rfl

theorem string_toLower_toUpper (s : String) : s.toUpper.toLower = s.toLower := by
  have hfun : Char.toLower ∘ Char.toUpper = Char.toLower := funext char_toLower_toUpper
  simp [String.toUpper, String.toLower, String.map_eq, List.map_map, hfun]

theorem string_toLower_eq_empty (s : String) : s.toLower = "" ↔ s = "" := by
  rw [String.toLower]
  exact string_map_eq_empty_iff Char.toLower s

theorem string_toUpper_eq_empty (s : String) : s.toUpper = "" ↔ s = "" := by
  rw [String.toUpper]
  exact string_map_eq_empty_iff Char.toUpper s

theorem jsOrS_eq (a : Option String) (rest : String) :
    jsOrS a rest = if a.getD "" = "" then rest else a.getD "" := by
  cases a with
  | none => simp [jsOrS]
  | some s =>
    by_cases h : s = "" <;> simp [jsOrS, h]

/-! ## Claim C4: requests without signedPayload bypass the pipeline -/

/-- Claim C4: for every POST request body that lacks a `signedPayload`
field, the verification pipeline is bypassed: the handler acknowledges
unconditionally with status 200 and echoes the input body unmodified, and
no verification error can be raised. -/
theorem handler_no_signedPayload_bypasses (appleKeys : List Jwk) (now : String)
    (forwardStatus : Nat) (req : Request)
    (hm : req.method = "POST") (hsp : req.body.signedPayload = none) :
    handler appleKeys now forwardStatus req = (.acknowledged req.body, none) ∧
    (handler appleKeys now forwardStatus req).1.statusCode = 200 := by
  refine ⟨?_, ?_⟩ <;> simp [handler, hm, hsp, Response.statusCode]

/-- Witness for C4: a concrete ping request is acknowledged with its body
echoed and nothing forwarded. -/
theorem handler_no_signedPayload_bypasses_witness :
    handler [] "2025-01-01T00:00:00.000Z" 200 exReqPing =
      (.acknowledged exReqPing.body, none) ∧
    (handler [] "2025-01-01T00:00:00.000Z" 200 exReqPing).1.statusCode = 200 :=
  handler_no_signedPayload_bypasses [] "2025-01-01T00:00:00.000Z" 200 exReqPing rfl rfl

/-! ## Claim C5: normalization purity and determinism -/

/-- Counterexample for C5 as stated: the normalized record contains the
wall-clock generation timestamp `now`, so two applications on identical
decoded inputs (notification, transaction info, renewal info) at different
clock readings produce different records. -/
theorem normalize_clock_counterexample :
    normalize "2025-01-01T00:00:00.000Z" exNote none none ≠
      normalize "2025-01-02T00:00:00.000Z" exNote none none := by
  decide

/-- Claim C5 (amended): `normalize` is a pure function of the clock
reading and the decoded inputs; on identical decoded inputs two
applications agree on every field except the generation timestamp `now`,
which takes the clock value of the respective application. -/
theorem normalize_deterministic_given_clock (t₁ t₂ : String) (note : Note)
    (txnInfo : Option TxnInfo) (renInfo : Option RenInfo) :
    normalize t₁ note txnInfo renInfo =
      { normalize t₂ note txnInfo renInfo with now := t₁ } := rfl

/-! ## Claim C6: timestamp unit disambiguation -/

/-- Counterexample for C6 as stated: at exactly `v = 10^12` the code takes
the seconds branch (`n > 1e12` is strict), multiplying by 1000, so the
result is not the milliseconds interpretation `toIso (10^12)` that the
claim's `≥` threshold requires. -/
theorem msToIso_threshold_counterexample :
    msToIso (some (10 ^ 12)) = some (toIso (10 ^ 12 * 1000)) ∧
    msToIso (some (10 ^ 12)) ≠ some (toIso (10 ^ 12)) := by
  refine ⟨rfl, ?_⟩
  decide

/-- Claim C6 (amended): a nonzero numeric expiration value `v` is treated
as milliseconds exactly when `v > 10^12` (strictly) and as seconds
otherwise; the inputs `1700000000` (seconds) and `1700000000000`
(milliseconds) still normalize to the same ISO-8601 instant. -/
theorem msToIso_unit_rule :
    (∀ v : Int, v ≠ 0 →
      msToIso (some v) = some (toIso (if v > 10 ^ 12 then v else v * 1000))) ∧
    msToIso (some 1700000000) = msToIso (some 1700000000000) := by
  refine ⟨?_, ?_⟩
  · intro v hv
    simp [msToIso, hv]
  · decide

/-- Witness for C6 (amended) at `v = 1700000000`. -/
theorem msToIso_unit_rule_witness :
    (1700000000 : Int) ≠ 0 ∧
    msToIso (some 1700000000) =
      some (toIso (if (1700000000 : Int) > 10 ^ 12 then 1700000000
                   else 1700000000 * 1000)) :=
  ⟨by decide, msToIso_unit_rule.1 1700000000 (by decide)⟩

/-! ## Claim C8: absent or zero expiration is null, never the epoch -/

/-- Claim C8: whenever the transaction expiration timestamp is absent or
zero, the normalized `transaction_expires_at` is `null` — in particular it
is never the Unix epoch instant. -/
theorem absent_or_zero_expiry_is_null (now : String) (note : Note)
    (txnInfo : Option TxnInfo) (renInfo : Option RenInfo)
    (h : txnInfo.bind TxnInfo.expiresDate = none ∨
         txnInfo.bind TxnInfo.expiresDate = some 0) :
    (normalize now note txnInfo renInfo).transaction_expires_at = none ∧
    (normalize now note txnInfo renInfo).transaction_expires_at ≠
      some (toIso 0) := by
  have hms : msToIso (txnInfo.bind TxnInfo.expiresDate) = none := by
    rcases h with h | h <;> simp [h, msToIso]
  refine ⟨?_, ?_⟩ <;> simp [normalize, hms]

/-- Witness for C8: a transaction info with `expiresDate = 0` yields a null
expiry. -/
theorem absent_or_zero_expiry_is_null_witness :
    ((some { exTxn with expiresDate := some 0 } : Option TxnInfo).bind
        TxnInfo.expiresDate = none ∨
      (some { exTxn with expiresDate := some 0 } : Option TxnInfo).bind
        TxnInfo.expiresDate = some 0) ∧
    (normalize "2025-01-01T00:00:00.000Z" exNote
        (some { exTxn with expiresDate := some 0 }) none).transaction_expires_at =
      none ∧
    (normalize "2025-01-01T00:00:00.000Z" exNote
        (some { exTxn with expiresDate := some 0 }) none).transaction_expires_at ≠
      some (toIso 0) :=
  ⟨Or.inr rfl,
    absent_or_zero_expiry_is_null "2025-01-01T00:00:00.000Z" exNote
      (some { exTxn with expiresDate := some 0 }) none (Or.inr rfl)⟩

theorem lower_upper_default (s : String) :
    (if s.toUpper.toLower = "" then "other" else s.toUpper.toLower) =
    (if s = "" then "other" else s.toLower) := by
  by_cases h : s = ""
  · subst h
    have h0 : ("" : String).toUpper.toLower = "" := by
      rw [string_toLower_eq_empty, string_toUpper_eq_empty]
    simp [h0]
  · have h2 : ¬ s.toUpper.toLower = "" := by
      rw [string_toLower_toUpper, string_toLower_eq_empty]
      exact h
    rw [if_neg h2, if_neg h, string_toLower_toUpper]

/-! ## Claim C7: the operation lookup table -/

/-- Claim C7: the operation is derived from the notification type code by
the fixed, case-insensitive lookup of the spec — `SUBSCRIBED ↦ purchase`,
`DID_RENEW ↦ renew`, `DID_FAIL_TO_RENEW ↦ renew_failed`,
`GRACE_PERIOD_EXPIRED ↦ grace_expired`, `EXPIRED ↦ expired`,
`REFUND`/`REVOKE ↦ revoked`, `DID_CHANGE_RENEWAL_STATUS ↦ auto_renew_off`
exactly when the renewal info's auto-renew flag is literally `"OFF"` and
`auto_renew_on` otherwise, and any other type code to its lower-cased
form, or `other` when the type code is empty. -/
theorem mapOperation_matches_spec (note : Note) (renInfo : Option RenInfo) :
    mapOperation note renInfo =
      specOperation (jsOrS note.notificationType "")
        (renInfo.bind RenInfo.autoRenewStatus) := by
  simp only [mapOperation, specOperation]
  refine if_congr Iff.rfl rfl (if_congr Iff.rfl rfl (if_congr Iff.rfl rfl
    (if_congr Iff.rfl rfl (if_congr Iff.rfl rfl (if_congr Iff.rfl rfl
      (if_congr Iff.rfl rfl ?_))))))
  exact lower_upper_default (jsOrS note.notificationType "")

/-! ## Claim C9: product derivation and singleton lists -/

/-- Claim C9: the derived product id is the transaction info's product id
when that is present and non-empty, else the renewal info's auto-renew
target product when present and non-empty, else the empty string; and the
`products` and `entitlements` lists are singletons exactly when the
derived product id is non-empty, and empty otherwise — never longer than
one. -/
theorem product_derivation_and_singletons (now : String) (note : Note)
    (txnInfo : Option TxnInfo) (renInfo : Option RenInfo) :
    ((txnInfo.bind TxnInfo.productId).getD "" ≠ "" →
      derivedProductId txnInfo renInfo = (txnInfo.bind TxnInfo.productId).getD "")
    ∧ ((txnInfo.bind TxnInfo.productId).getD "" = "" →
        (renInfo.bind RenInfo.autoRenewPreference).getD "" ≠ "" →
        derivedProductId txnInfo renInfo =
          (renInfo.bind RenInfo.autoRenewPreference).getD "")
    ∧ ((txnInfo.bind TxnInfo.productId).getD "" = "" →
        (renInfo.bind RenInfo.autoRenewPreference).getD "" = "" →
        derivedProductId txnInfo renInfo = "")
    ∧ (normalize now note txnInfo renInfo).products =
        (if derivedProductId txnInfo renInfo = "" then []
         else [derivedProductId txnInfo renInfo])
    ∧ (normalize now note txnInfo renInfo).entitlements.length =
        (if derivedProductId txnInfo renInfo = "" then 0 else 1)
    ∧ (normalize now note txnInfo renInfo).products.length ≤ 1
    ∧ (normalize now note txnInfo renInfo).entitlements.length ≤ 1 := by
  have hd : derivedProductId txnInfo renInfo =
      if (txnInfo.bind TxnInfo.productId).getD "" = "" then
        (if (renInfo.bind RenInfo.autoRenewPreference).getD "" = "" then ""
         else (renInfo.bind RenInfo.autoRenewPreference).getD "")
      else (txnInfo.bind TxnInfo.productId).getD "" := by
    rw [derivedProductId, jsOrS_eq, jsOrS_eq]
  have hnp : (normalize now note txnInfo renInfo).products =
      (if derivedProductId txnInfo renInfo = "" then []
       else [derivedProductId txnInfo renInfo]) := by
    simp only [normalize, derivedProductId]
    split_ifs with h1 h2 <;> simp_all
  have hne : (normalize now note txnInfo renInfo).entitlements.length =
      (if derivedProductId txnInfo renInfo = "" then 0 else 1) := by
    simp only [normalize, derivedProductId]
    split_ifs with h1 h2 <;> simp_all
  refine ⟨?_, ?_, ?_, hnp, hne, ?_, ?_⟩
  · intro h1
    rw [hd, if_neg h1]
  · intro h1 h2
    rw [hd, if_pos h1, if_neg h2]
  · intro h1 h2
    rw [hd, if_pos h1, if_pos h2]
  · rw [hnp]
    split_ifs <;> simp
  · rw [hne]
    split_ifs <;> simp

/-- Witness for C9: with a transaction product id `"pro_monthly"` the
derived product is `"pro_monthly"` and both lists are singletons. -/
theorem product_derivation_and_singletons_witness :
    (((some exTxn : Option TxnInfo).bind TxnInfo.productId).getD "" ≠ "" ∧
      derivedProductId (some exTxn) none =
        ((some exTxn : Option TxnInfo).bind TxnInfo.productId).getD "") ∧
    (normalize "2025-01-01T00:00:00.000Z" exNote (some exTxn) none).products =
      (if derivedProductId (some exTxn) none = "" then []
       else [derivedProductId (some exTxn) none]) ∧
    (normalize "2025-01-01T00:00:00.000Z" exNote (some exTxn) none).entitlements.length =
      (if derivedProductId (some exTxn) none = "" then 0 else 1) :=
  ⟨⟨by decide,
      (product_derivation_and_singletons "2025-01-01T00:00:00.000Z" exNote
        (some exTxn) none).1 (by decide)⟩,
    (product_derivation_and_singletons "2025-01-01T00:00:00.000Z" exNote
      (some exTxn) none).2.2.2.1,
    (product_derivation_and_singletons "2025-01-01T00:00:00.000Z" exNote
      (some exTxn) none).2.2.2.2.1⟩

/-! ## Claim C10: identifier fields are always strings -/

/-- Claim C10: the normalized `transaction_id` and every emitted
entitlement's `original_transaction_id` are produced by the
`String(x || '')` coercion of the corresponding optional claim value:
numeric values render in decimal, absent or falsy values become the empty
string, and the fields are strings for every input. -/
theorem id_fields_are_coerced_strings (now : String) (note : Note)
    (txnInfo : Option TxnInfo) (renInfo : Option RenInfo) :
    (normalize now note txnInfo renInfo).transaction_id =
      strCoerce (txnInfo.bind TxnInfo.transactionId)
    ∧ (∀ ent ∈ (normalize now note txnInfo renInfo).entitlements,
        ent.original_transaction_id =
          strCoerce (txnInfo.bind TxnInfo.originalTransactionId))
    ∧ (∀ n : Int, n ≠ 0 → strCoerce (some (.jnum n)) = toString n)
    ∧ (∀ s : String, s ≠ "" → strCoerce (some (.jstr s)) = s)
    ∧ strCoerce none = ""
    ∧ strCoerce (some (.jnum 0)) = ""
    ∧ strCoerce (some (.jstr "")) = "" := by
  refine ⟨?_, ?_, ?_, ?_, rfl, rfl, rfl⟩
  · simp [normalize]
  · intro ent hent
    simp only [normalize] at hent
    split_ifs at hent with h
    · simp at hent
      rw [hent]
    · simp at hent
  · intro n hn
    simp [strCoerce, JVal.truthy, JVal.toStr, hn]
  · intro s hs
    simp [strCoerce, JVal.truthy, JVal.toStr, hs]

/-- Witness for C10: the numeric transaction id `42` normalizes to the
string `"42"` and the entitlement's original transaction id to
`"orig-1"`. -/
theorem id_fields_are_coerced_strings_witness :
    (normalize "2025-01-01T00:00:00.000Z" exNote (some exTxn) none).transaction_id =
      strCoerce ((some exTxn : Option TxnInfo).bind TxnInfo.transactionId) ∧
    ((42 : Int) ≠ 0 ∧ strCoerce (some (.jnum 42)) = toString (42 : Int)) ∧
    (("orig-1" : String) ≠ "" ∧ strCoerce (some (.jstr "orig-1")) = "orig-1") :=
  ⟨(id_fields_are_coerced_strings "2025-01-01T00:00:00.000Z" exNote
      (some exTxn) none).1,
    ⟨by decide,
      (id_fields_are_coerced_strings "2025-01-01T00:00:00.000Z" exNote
        (some exTxn) none).2.2.1 42 (by decide)⟩,
    ⟨by decide,
      (id_fields_are_coerced_strings "2025-01-01T00:00:00.000Z" exNote
        (some exTxn) none).2.2.2.1 "orig-1" (by decide)⟩⟩

theorem jwtVerify_ok_sigAlg {α : Type} (j : Jws α) (key : Key) (x : α)
    (h : jwtVerify j key ["ES256"] = .ok x) : j.sigAlg = "ES256" := by
  simp only [jwtVerify] at h
  by_cases h1 : j.alg.getD "" ∈ ["ES256"]
  · rw [if_pos h1] at h
    by_cases h2 : j.sigKey = some key ∧ j.sigAlg = j.alg.getD ""
    · have halg : j.alg.getD "" = "ES256" := by simpa using h1
      rw [h2.2, halg]
    · rw [if_neg h2] at h
      simp at h
  · rw [if_neg h1] at h
    simp at h

theorem jwtVerify_wrong_sigAlg {α : Type} (j : Jws α) (key : Key)
    (h : j.sigAlg ≠ "ES256") :
    jwtVerify j key ["ES256"] = .error .signatureInvalid := by
  simp only [jwtVerify]
  by_cases h1 : j.alg.getD "" ∈ ["ES256"]
  · rw [if_pos h1]
    have halg : j.alg.getD "" = "ES256" := by simpa using h1
    rw [if_neg]
    rintro ⟨-, h2⟩
    exact h (h2.trans halg)
  · rw [if_neg h1]

/-! ## Claim C1: key resolution priority -/

/-- Claim C1: key resolution follows a strict priority order — a token
whose header carries a (truthy) kid is resolved against the configured key
set and fails with `keyNotFound` when no key with that kid is present; a
token without kid but with a non-empty certificate chain is verified
against an ad-hoc key built from the leaf certificate, independently of
any key set; a token with neither kid nor certificate chain fails with
`noKeyMaterial`. -/
theorem key_resolution_priority (α : Type) (keys : List Jwk) (j : Jws α) :
    (∀ k, j.kid = some k → k ≠ "" → (∀ e ∈ keys, e.kid ≠ k) →
      verifyAndDecode keys (.parsed j) = .error (.keyNotFound k))
    ∧ (j.kid.getD "" = "" →
        ∀ c cs, j.x5c = c :: cs →
          verifyAndDecode keys (.parsed j) = jwtVerify j (.fromCert c) ["ES256"] ∧
          ∀ keys2 : List Jwk,
            verifyAndDecode keys2 (.parsed j) = verifyAndDecode keys (.parsed j))
    ∧ (j.kid.getD "" = "" → j.x5c = [] →
        verifyAndDecode keys (.parsed j) = .error .noKeyMaterial) := by
  refine ⟨?_, ?_, ?_⟩
  · intro k hk hkne hmem
    have hkd : j.kid.getD "" = k := by rw [hk]; rfl
    have hfind : keys.find? (fun e => e.kid == k) = none := by
      rw [List.find?_eq_none]
      intro x hx
      simp [hmem x hx]
    simp [verifyAndDecode, hkd, hkne, hfind]
  · intro hkid c cs hx
    refine ⟨?_, ?_⟩
    · simp [verifyAndDecode, hkid, hx]
    · intro keys2
      simp [verifyAndDecode, hkid, hx]
  · intro hkid hx
    simp [verifyAndDecode, hkid, hx]

/-- Witness for C1: an unknown kid fails with `keyNotFound "kidB"`, a
kid-less token with a certificate chain verifies against the leaf
certificate's ad-hoc key, and a bare token fails with `noKeyMaterial`. -/
theorem key_resolution_priority_witness :
    verifyAndDecode [{ kid := "kidA" }] (.parsed exJwsKidMiss) =
      .error (.keyNotFound "kidB") ∧
    verifyAndDecode ([] : List Jwk) (.parsed exJwsX5c) =
      jwtVerify exJwsX5c (.fromCert "leaf") ["ES256"] ∧
    verifyAndDecode ([] : List Jwk) (.parsed exJwsBare) =
      .error .noKeyMaterial :=
  ⟨(key_resolution_priority Note [{ kid := "kidA" }] exJwsKidMiss).1 "kidB" rfl
      (by decide) (by decide),
    ((key_resolution_priority Note [] exJwsX5c).2.1 rfl "leaf" ["intermediate"]
      rfl).1,
    (key_resolution_priority Note [] exJwsBare).2.2 rfl rfl⟩

/-! ## Claim C2: only the fixed algorithm is accepted -/

/-- Claim C2: a token whose signature was actually produced with an
algorithm other than the configured ES256 is rejected with
`signatureInvalid` whenever key resolution succeeds — even when the
header self-declares ES256 — and, conversely, any token that verifies
successfully was signed with ES256: the algorithm accepted is always the
fixed configured one, never the header's self-declared one. -/
theorem verify_fixed_algorithm (α : Type) (keys : List Jwk) (j : Jws α) :
    (∀ x : α, verifyAndDecode keys (.parsed j) = .ok x → j.sigAlg = "ES256")
    ∧ (j.sigAlg ≠ "ES256" →
        ((∃ k, j.kid = some k ∧ k ≠ "" ∧ ∃ jwk ∈ keys, jwk.kid = k) ∨
          (j.kid.getD "" = "" ∧ j.x5c ≠ [])) →
        verifyAndDecode keys (.parsed j) = .error .signatureInvalid) := by
  refine ⟨?_, ?_⟩
  · intro x hok
    simp only [verifyAndDecode] at hok
    by_cases hkid : j.kid.getD "" ≠ ""
    · rw [if_pos hkid] at hok
      cases hfind : keys.find? (fun e => e.kid == j.kid.getD "") with
      | none => simp [hfind] at hok
      | some jwk =>
        rw [hfind] at hok
        exact jwtVerify_ok_sigAlg _ _ _ hok
    · rw [if_neg hkid] at hok
      cases hx : j.x5c with
      | nil => simp [hx] at hok
      | cons c cs =>
        rw [hx] at hok
        exact jwtVerify_ok_sigAlg _ _ _ hok
  · intro hne hres
    rcases hres with ⟨k, hk, hkne, jwk, hjmem, hjkid⟩ | ⟨hkid, hx⟩
    · have hkd : j.kid.getD "" = k := by rw [hk]; rfl
      have hsome : (keys.find? fun e => e.kid == k).isSome := by
        rw [List.find?_isSome]
        exact ⟨jwk, hjmem, by simp [hjkid]⟩
      rcases Option.isSome_iff_exists.mp hsome with ⟨w, hw⟩
      simp [verifyAndDecode, hkd, hkne, hw, jwtVerify_wrong_sigAlg _ _ hne]
    · cases hx2 : j.x5c with
      | nil => exact absurd hx2 hx
      | cons c cs =>
        simp [verifyAndDecode, hkid, hx2, jwtVerify_wrong_sigAlg _ _ hne]

/-- Witness for C2: a token with a known kid whose signature was actually
made with RS256, while its header self-declares ES256, is rejected with
`signatureInvalid`. -/
theorem verify_fixed_algorithm_witness :
    exJwsWrongAlg.sigAlg ≠ "ES256" ∧
    exJwsWrongAlg.alg = some "ES256" ∧
    verifyAndDecode [{ kid := "kidA" }] (.parsed exJwsWrongAlg) =
      .error .signatureInvalid :=
  ⟨by decide, rfl,
    (verify_fixed_algorithm Note [{ kid := "kidA" }] exJwsWrongAlg).2 (by decide)
      (Or.inl ⟨"kidA", rfl, by decide, { kid := "kidA" }, by decide, rfl⟩)⟩

/-! ## Claim C3: all-or-nothing across nesting layers -/

/-- Claim C3: when the outer token verifies but a nested transaction-info
or renewal-info token is present and fails verification, the whole POST
request is rejected (status 400 with the error) and no normalized event is
forwarded downstream. -/
theorem nested_failure_rejects_whole_request (keys : List Jwk) (now : String)
    (forwardStatus : Nat) (req : Request) (sp : CompactJws Note) (note : Note)
    (hm : req.method = "POST")
    (hsp : req.body.signedPayload = some sp)
    (houter : verifyAndDecode keys sp = .ok note)
    (hnested :
      (∃ t, (note.data).bind NoteData.signedTransactionInfo = some t ∧
        ∃ e, verifyAndDecode (α := TxnInfo) keys t = .error e) ∨
      (∃ r, (note.data).bind NoteData.signedRenewalInfo = some r ∧
        ∃ e, verifyAndDecode (α := RenInfo) keys r = .error e)) :
    (∃ e, (handler keys now forwardStatus req).1 = .rejected e) ∧
    (handler keys now forwardStatus req).2 = none ∧
    (handler keys now forwardStatus req).1.statusCode = 400 := by
  have hpipe : ∃ e, pipeline keys now sp = .error e := by
    rcases hnested with ⟨t, ht, e, hte⟩ | ⟨r, hr, e, hre⟩
    · exact ⟨e, by
        simp [pipeline, houter, ht, hte, bind, Except.bind, Functor.map,
          Except.map, pure, Except.pure]⟩
    · cases htx : (note.data).bind NoteData.signedTransactionInfo with
      | none =>
        exact ⟨e, by
          simp [pipeline, houter, htx, hr, hre, bind, Except.bind, Functor.map,
            Except.map, pure, Except.pure]⟩
      | some t =>
        cases hvt : verifyAndDecode (α := TxnInfo) keys t with
        | error e1 =>
          exact ⟨e1, by
            simp [pipeline, houter, htx, hvt, bind, Except.bind, Functor.map,
              Except.map, pure, Except.pure]⟩
        | ok tx =>
          exact ⟨e, by
            simp [pipeline, houter, htx, hvt, hr, hre, bind, Except.bind,
              Functor.map, Except.map, pure, Except.pure]⟩
  rcases hpipe with ⟨e, hp⟩
  refine ⟨⟨e, ?_⟩, ?_, ?_⟩ <;>
    simp [handler, hm, hsp, hp, Response.statusCode]

/-- Witness for C3: a request whose outer token verifies via its
certificate chain but whose nested transaction token is malformed is
rejected with nothing forwarded. -/
theorem nested_failure_rejects_whole_request_witness :
    exReqNested.method = "POST" ∧
    exReqNested.body.signedPayload = some (.parsed exOuterOk) ∧
    verifyAndDecode ([] : List Jwk) (.parsed exOuterOk) = .ok exNoteNested ∧
    (∃ e, (handler [] "2025-01-01T00:00:00.000Z" 200 exReqNested).1 =
      .rejected e) ∧
    (handler [] "2025-01-01T00:00:00.000Z" 200 exReqNested).2 = none ∧
    (handler [] "2025-01-01T00:00:00.000Z" 200 exReqNested).1.statusCode = 400 :=
  ⟨rfl, rfl, rfl,
    nested_failure_rejects_whole_request [] "2025-01-01T00:00:00.000Z" 200
      exReqNested (.parsed exOuterOk) exNoteNested rfl rfl rfl
      (Or.inl ⟨.malformed, rfl, .malformedToken, rfl⟩)⟩

end AssnGateway
